import Mathlib

/-!
Shallow embedding of the reconciliation core of mesos-consul
(`mesos/register.go`): the host reconciler, the task reconciler, the
cache-diff decision, tag composition and identifier construction.

Registry mutations are modelled as an explicit trace of calls
(`RegCall`): the Go code calls `m.Registry.Register`,
`m.Registry.CacheMark`, `m.Registry.CacheDelete` and
`m.Registry.CacheLookup`; the embedding returns the list of mutating
calls issued and reads the cache from an explicit snapshot value.
-/

namespace MesosConsul

/-- A key/value label, as carried by tasks and discovery ports
(`state.Label`). -/
structure Label where
  Key : String
  Value : String
deriving DecidableEq, Repr

/-- One discovery port of a task (`state.DiscoveryPort`): a number, an
optional name, and its own labels. -/
structure DiscoveryPort where
  Name : String
  Number : Nat
  Labels : List Label
deriving DecidableEq, Repr

/-- The ports field of a task's discovery descriptor (`state.Ports`). -/
structure Ports where
  DiscoveryPorts : List DiscoveryPort
deriving DecidableEq, Repr

/-- A task's discovery descriptor (`state.DiscoveryInfo`): an optional
name and the declared ports. -/
structure DiscoveryInfo where
  Name : String
  Ports : Ports
deriving DecidableEq, Repr

/-- Modelled from the spec: a workload instance ("task") with
identifier, display name, ordered key/value labels, a discovery
descriptor, and candidate IP addresses keyed by source (the `state.Task`
type is declared outside the reconciliation core). -/
structure Task where
  ID : String
  Name : String
  Labels : List Label
  DiscoveryInfo : DiscoveryInfo
  IPSources : List (String × String)
deriving DecidableEq, Repr

/-- Modelled from the spec: label lookup on a task (`state.Task.Label`
is outside the core). The labels are an ordered list whose keys are not
guaranteed unique; the first match of a given key wins, and a missing
key is an error in Go, here `none`. -/
def Task.Label (t : Task) (key : String) : Option String :=
  (t.Labels.find? (fun l => l.Key == key)).map (fun l => l.Value)

/-- Modelled from the spec: address resolution (`state.Task.IP` is
outside the core) resolves one address from the instance's IP candidates
using the caller-supplied preference order over sources. -/
def Task.IP (t : Task) (order : List String) : String :=
  match order.filterMap (fun src => (t.IPSources.find? (fun p => p.1 == src)).map (fun p => p.2)) with
  | a :: _ => a
  | [] => ""

/-- Modelled from the spec: label lookup on a discovery port
(`state.DiscoveryPort.Label` is outside the core); an absent key yields
the empty string, which the caller treats as "no label". -/
def DiscoveryPort.Label (dp : DiscoveryPort) (key : String) : String :=
  ((dp.Labels.find? (fun l => l.Key == key)).map (fun l => l.Value)).getD ""

/-- The address of a worker node as reported by the state source
(`f.PID` in `RegisterHosts`). -/
structure PID where
  Host : String
  Port : String
deriving DecidableEq, Repr

/-- A worker node ("slave") of the snapshot (`state.Slave`). -/
structure Slave where
  ID : String
  Hostname : String
  PID : PID
deriving DecidableEq, Repr

/-- A cluster-state snapshot (`state.State`), restricted to the fields
the host reconciler reads. -/
structure State where
  Slaves : List Slave
deriving DecidableEq, Repr

/-- Modelled from the spec: a control-plane node as returned by
`m.getMasters` (declared outside the core): resolved address, the port
both as a string and as a number, and the leadership flag. -/
structure MasterInfo where
  Ip : String
  PortString : String
  Port : Nat
  IsLeader : Bool
deriving DecidableEq, Repr

/-- A health-check descriptor (`registry.Check`), restricted to the
fields the core writes. -/
structure Check where
  HTTP : String := ""
  Interval : String := ""
deriving DecidableEq, Repr

/-- The host/port context handed to the external check builder
(`CheckVar`); a field left unset in Go stays at its zero value `""`. -/
structure CheckVar where
  Host : String := ""
  Port : String := ""
deriving DecidableEq, Repr

/-- A service definition to register (`registry.Service`). A `Port`
field left unset in the Go struct literal is modelled as `none`. -/
structure Service where
  ID : String
  Name : String
  Port : Option Nat := none
  Address : String := ""
  Tags : List String := []
  Check : Check := {}
  Agent : String := ""
deriving DecidableEq, Repr

/-- A mutating registry call issued by the core, in issue order. -/
inductive RegCall where
  | register (s : Service)
  | cacheMark (id : String)
  | cacheDelete (id : String)
deriving DecidableEq, Repr

/-- A snapshot of the registry client's cache: identifier to the
previously registered tag list (`CacheLookup` reads it). -/
def Cache : Type := List (String × List String)

/-- Cache lookup by identifier (`m.Registry.CacheLookup(s.ID)`),
returning the cached entry's tags. -/
def cacheLookup (c : Cache) (id : String) : Option (List String) :=
  ((c : List (String × List String)).find? (fun p => p.1 == id)).map (fun p => p.2)

/-- Modelled from the spec: `toIP` (declared outside the core) resolves
a reported host to an IP; numeric hosts pass through unchanged and DNS
resolution is network I/O outside the core, so resolution is modelled as
the identity on the reported host. -/
def toIP (host : String) : String := host

/-- Decimal parse of a character list; any non-digit character fails the
parse. -/
def parseDigits : List Char → Nat → Option Nat
  | [], acc => some acc
  | c :: cs, acc =>
    if c.isDigit then parseDigits cs (acc * 10 + (c.toNat - 48)) else none

/-- Modelled from the spec: `toPort` (declared outside the core) parses
a decimal port string to a number; an unparsable string is a boundary
condition and yields 0. -/
def toPort (p : String) : Nat := (parseDigits p.toList 0).getD 0

/-- Modelled from the spec: `cleanName` (declared outside the core) maps
a raw string into one safe inside a composite registry identifier,
replacing characters outside the registry's allowed set with the
configured separator. -/
def cleanName (name separator : String) : String :=
  String.join (name.toList.map (fun c =>
    if c.isAlphanum || c == '-' || c == '_' then String.singleton c else separator))

/-- Modelled from the spec: `sliceEq` (declared outside the core) is the
order-insensitive comparison of two duplicate-free tag lists: same
length and every element of one occurs in the other. -/
def sliceEq (a b : List String) : Bool :=
  a.length == b.length && a.all (fun x => b.contains x)

/-- Modelled from the spec: `sliceContainsString` (declared outside the
core) tests whether a tag is already present in the result slice. -/
def sliceContainsString (l : List String) (s : String) : Bool :=
  l.contains s

/-- Go's `strings.ToLower`, written over the character list so that it
evaluates by kernel reduction. The mapping is `Char.toLower`, which
lower-cases ASCII letters only, while Go lower-cases Unicode letters as
well; the theorems below apply it to ASCII inputs only. -/
def strToLower (s : String) : String := String.mk (s.toList.map Char.toLower)

/-- Go's `strings.Contains`: the pattern occurs as a contiguous
substring of the string. -/
def strContains (s pat : String) : Bool :=
  s.toList.tails.any (fun t => pat.toList.isPrefixOf t)

/-- The reconciliation engine's configuration and collaborators
(`Mesos`). `TaskPrivilege` is the allow-list checker's `Allowed` and
`GetCheck` the external check builder, both pluggable capabilities. The
task-tag rule table `taskTag` is a Go `map[string][]string`, whose
`range` iteration order Go leaves unspecified and randomizes; it is
modelled as an association list, which stands for the map's contents in
one possible iteration order, so conclusions that depend on the list's
order hold only relative to that chosen order. -/
structure Mesos where
  ServiceIdPrefix : String
  ServiceName : String
  ServiceTags : List String
  Separator : String
  IpOrder : List String
  taskTag : List (String × List String)
  TaskPrivilege : String → Bool
  GetCheck : Task → CheckVar → Check
  Masters : List MasterInfo
  Agents : List (String × String) := []

/-- Modelled from the spec: `m.getMasters` (declared outside the core)
yields the snapshot's control-plane nodes with their leadership flag. -/
def Mesos.getMasters (m : Mesos) : List MasterInfo := m.Masters

/-- Node-tag composition (`agentTags`, `register.go:220-234`): with no
configured suffixes the roles are returned unchanged; otherwise, for
every configured suffix and every role, `role.suffix` is appended. -/
def Mesos.agentTags (m : Mesos) (ts : List String) : List String :=
  if m.ServiceTags.length == 0 then ts
  else m.ServiceTags.foldl (fun rval tag =>
    ts.foldl (fun rval t => rval ++ [t ++ "." ++ tag]) rval) []

/-- One step of task-tag rule application (`register.go:207-214`, the
body of the inner loop): append `tag` if the lower-cased name contains
the pattern and the tag is not already present. -/
def tagStep (tnameLower pattern : String) (result : List String) (tag : String) : List String :=
  if strContains tnameLower pattern && !sliceContainsString result tag then
    result ++ [tag]
  else
    result

/-- Application of one `(pattern, tags)` rule of the table
(`register.go:206-215`, one iteration of the outer loop). -/
def applyTagRule (tnameLower : String) (result : List String) (rule : String × List String) : List String :=
  rule.2.foldl (tagStep tnameLower rule.1) result

/-- Task-tag composition (`buildRegisterTaskTags`,
`register.go:202-218`): fold the rule table over the starting tags,
matching each pattern against the lower-cased name. The fold's order is
that of the association list — one possible `range` order of the Go map,
which defines none. -/
def buildRegisterTaskTags (taskName : String) (startingTags : List String)
    (taskTag : List (String × List String)) : List String :=
  taskTag.foldl (applyTagRule (strToLower taskName)) startingTags

/-- The cache-diff decision (`registerHost`, `register.go:82-101`):
look the identifier up in the cache; on a hit with equal tags mark the
entry confirmed, on a hit with different tags delete then register, on a
miss register. -/
def registerHost (c : Cache) (s : Service) : List RegCall :=
  match cacheLookup c s.ID with
  | some h =>
    if sliceEq s.Tags h then
      [RegCall.cacheMark s.ID]
    else
      [RegCall.cacheDelete s.ID, RegCall.register s]
  | none => [RegCall.register s]

/-- The desired entry built for one worker node
(`register.go:41-52`). -/
def Mesos.slaveService (m : Mesos) (f : Slave) : Service :=
  let agent := toIP f.PID.Host
  let port := toPort f.PID.Port
  { ID := m.ServiceIdPrefix ++ ":" ++ m.ServiceName ++ ":" ++ f.ID ++ ":" ++ f.Hostname
    Name := m.ServiceName
    Port := some port
    Address := agent
    Agent := agent
    Tags := m.agentTags ["agent", "follower"]
    Check := { HTTP := "http://" ++ agent ++ ":" ++ toString port ++ "/slave(1)/health"
               Interval := "10s" } }

/-- The desired entry built for one control-plane node
(`register.go:57-76`). -/
def Mesos.masterService (m : Mesos) (ma : MasterInfo) : Service :=
  { ID := m.ServiceIdPrefix ++ ":" ++ m.ServiceName ++ ":" ++ ma.Ip ++ ":" ++ ma.PortString
    Name := m.ServiceName
    Port := some ma.Port
    Address := ma.Ip
    Agent := ma.Ip
    Tags := if ma.IsLeader then m.agentTags ["leader", "master"] else m.agentTags ["master"]
    Check := { HTTP := "http://" ++ ma.Ip ++ ":" ++ toString ma.Port ++ "/master/health"
               Interval := "10s" } }

/-- Go-map insertion into the agent-address map (`m.Agents[k] = v`):
overwrite the entry of an existing key, otherwise append. -/
def mapInsert (mp : List (String × String)) (k v : String) : List (String × String) :=
  if mp.any (fun p => p.1 == k) then
    mp.map (fun p => if p.1 == k then (k, v) else p)
  else
    mp ++ [(k, v)]

/-- The host reconciler (`RegisterHosts`, `register.go:29-80`): rebuild
the agent-address map from scratch, pass every worker's entry and then
every control-plane node's entry through the cache-diff decision, and
return the fresh map together with the issued registry calls. -/
def Mesos.RegisterHosts (m : Mesos) (c : Cache) (s : State) :
    List (String × String) × List RegCall :=
  let agents := s.Slaves.foldl (fun mp f => mapInsert mp f.ID (toIP f.PID.Host)) []
  let slaveCalls := s.Slaves.foldl (fun acc f => acc ++ registerHost c (m.slaveService f)) []
  let masterCalls := m.getMasters.foldl (fun acc ma => acc ++ registerHost c (m.masterService ma)) []
  (agents, slaveCalls ++ masterCalls)

/-- The cleaned, possibly overridden task name (`register.go:111-116`):
clean the task identifier, unless an `overrideTaskName` label overrides
it. -/
def Mesos.taskName (m : Mesos) (t : Task) : String :=
  match t.Label "overrideTaskName" with
  | some value => cleanName value m.Separator
  | none => cleanName t.ID m.Separator

/-- The task's base tags from its `tags` label (`register.go:123-127`):
comma-split when present, empty otherwise. -/
def taskLabelTags (t : Task) : List String :=
  match t.Label "tags" with
  | some l => l.splitOn ","
  | none => []

/-- The per-port tags of a discovery port (`register.go:137-142`):
comma-split of the port's `tags` label when non-empty. -/
def portLabelTags (dp : DiscoveryPort) : List String :=
  if dp.Label "tags" != "" then (dp.Label "tags").splitOn "," else []

/-- The desired entry for a task with empty discovery name
(`register.go:186-195`): base name, no port, host-only check context. -/
def Mesos.noPortService (m : Mesos) (t : Task) (agent tname address : String)
    (tags : List String) : Service :=
  { ID := m.ServiceIdPrefix ++ ":" ++ agent ++ "-" ++ tname ++ ":" ++ address
    Name := tname
    Address := address
    Tags := tags
    Check := m.GetCheck t { Host := toIP address }
    Agent := toIP agent }

/-- The primary entry registered for the first discovery port
(`register.go:147-158`): note the literal `"mesos-consul"` identifier
head and the absence of the address discriminator. -/
def Mesos.primaryPortService (m : Mesos) (t : Task) (agent tname address : String)
    (tags : List String) (dp : DiscoveryPort) : Service :=
  let servicePort := toString dp.Number
  { ID := "mesos-consul" ++ ":" ++ agent ++ ":" ++ tname ++ ":" ++ servicePort
    Name := tname
    Port := some (toPort servicePort)
    Address := address
    Tags := tags
    Check := m.GetCheck t { Host := toIP address, Port := servicePort }
    Agent := toIP agent }

/-- The additional entry registered for a named discovery port
(`register.go:166-182`). -/
def Mesos.namedPortService (m : Mesos) (t : Task) (agent tname address : String)
    (tags : List String) (dp : DiscoveryPort) : Service :=
  let servicePort := toString dp.Number
  { ID := m.ServiceIdPrefix ++ ":" ++ agent ++ ":" ++ tname ++ ":" ++ address ++ ":" ++ toString dp.Number
    Name := cleanName (tname ++ "-" ++ dp.Name) m.Separator
    Port := some (toPort servicePort)
    Address := address
    Tags := tags ++ [dp.Name] ++ portLabelTags dp
    Check := m.GetCheck t { Host := toIP address, Port := servicePort }
    Agent := toIP agent }

/-- The registry calls issued for one discovery port at index `key`
(`register.go:133-184`, one loop iteration): the primary entry for the
first port, then the named entry when the port carries a name. -/
def Mesos.portCalls (m : Mesos) (t : Task) (agent tname address : String)
    (tags : List String) (key : Nat) (dp : DiscoveryPort) : List RegCall :=
  (if key == 0 then [RegCall.register (m.primaryPortService t agent tname address tags dp)] else [])
    ++ (if dp.Name != "" then [RegCall.register (m.namedPortService t agent tname address tags dp)] else [])

/-- The task reconciler (`registerTask`, `register.go:103-198`): the
migration-marker exclusion, the privilege gate, and the branch between
the discovery-ports loop and the single no-port registration. The
returned trace holds the registry calls issued; an error issues none. -/
def Mesos.registerTask (m : Mesos) (t : Task) (agent : String) :
    Except String (List RegCall) :=
  match t.Label "consul" with
  | some _ => Except.error "Application with consul label"
  | none =>
    let tname := m.taskName t
    if !(m.TaskPrivilege tname) then
      Except.error "Task not allowed to be registered"
    else
      let address := t.IP m.IpOrder
      let tags := buildRegisterTaskTags tname (taskLabelTags t) m.taskTag
      if t.DiscoveryInfo.Name != "" then
        Except.ok (t.DiscoveryInfo.Ports.DiscoveryPorts.enum.foldl
          (fun acc kp => acc ++ m.portCalls t agent tname address tags kp.1 kp.2) [])
      else
        Except.ok [RegCall.register (m.noPortService t agent tname address tags)]

/-! ### Helper lemmas -/

/-- A fold that appends a block per element equals the flattened map. -/
theorem foldl_append_eq {α β : Type} (f : α → List β) :
    ∀ (l : List α) (acc : List β),
      l.foldl (fun a x => a ++ f x) acc = acc ++ (l.map f).flatten := by
  intro l
  induction l with
  | nil => intro acc; simp
  | cons x xs ih => intro acc; simp [List.foldl_cons, ih]

/-- A fold that appends one element per step equals the mapped list. -/
theorem foldl_append_singleton {α β : Type} (f : α → β) :
    ∀ (l : List α) (acc : List β),
      l.foldl (fun a x => a ++ [f x]) acc = acc ++ l.map f := by
  intro l
  induction l with
  | nil => intro acc; simp
  | cons x xs ih => intro acc; simp [List.foldl_cons, ih]

/-- With configured suffixes, `agentTags` is the flattened cross
product, suffixes outermost. -/
theorem agentTags_eq_flatten (m : Mesos) (ts : List String) (h : m.ServiceTags ≠ []) :
    m.agentTags ts
      = (m.ServiceTags.map (fun tag => ts.map (fun t => t ++ "." ++ tag))).flatten := by
  unfold Mesos.agentTags
  have hlen : (m.ServiceTags.length == 0) = false := by
    cases hST : m.ServiceTags with
    | nil => exact absurd hST h
    | cons u us => simp
  rw [hlen]
  simp only [Bool.false_eq_true, if_false]
  have hfun : (fun (rval : List String) (tag : String) =>
        ts.foldl (fun rval t => rval ++ [t ++ "." ++ tag]) rval)
      = fun (rval : List String) (tag : String) =>
        rval ++ ts.map (fun t => t ++ "." ++ tag) := by
    funext rval tag
    exact foldl_append_singleton (fun t => t ++ "." ++ tag) ts rval
  rw [hfun]
  have hflat := foldl_append_eq (fun tag => ts.map (fun t => t ++ "." ++ tag)) m.ServiceTags []
  simpa using hflat

/-- A string whose leading characters differ from `p` is not `p`
followed by anything. -/
theorem ne_of_head_ne (p r s : String) (h9 : ¬ s.toList.take p.toList.length = p.toList) :
    s ≠ p ++ r := by
  intro h
  apply h9
  have h2 := congrArg (fun q => q.toList.take p.toList.length) h
  simp only [String.toList] at h2 ⊢
  rw [h2, String.data_append, List.take_left]

/-- With no configured suffixes, `agentTags` returns the roles unchanged. -/
theorem agentTags_nil {m : Mesos} (h : m.ServiceTags = []) (ts : List String) :
    m.agentTags ts = ts := by
  unfold Mesos.agentTags
  rw [h]
  rfl

/-! ### Claim theorems -/

/-- C1: for every desired host entry passed to `registerHost`: on a cache
miss exactly one `Register` call is issued; on a hit with set-equal tags
exactly one `CacheMark` and no `Register`; on a hit with differing tags
exactly one `CacheDelete` followed by exactly one `Register`. -/
theorem registerHost_cache_diff (c : Cache) (s : Service) :
    (cacheLookup c s.ID = none → registerHost c s = [RegCall.register s]) ∧
    (∀ h, cacheLookup c s.ID = some h → sliceEq s.Tags h = true →
      registerHost c s = [RegCall.cacheMark s.ID]) ∧
    (∀ h, cacheLookup c s.ID = some h → sliceEq s.Tags h = false →
      registerHost c s = [RegCall.cacheDelete s.ID, RegCall.register s]) := by
  unfold registerHost
  refine ⟨fun hn => by rw [hn], fun h hs he => by rw [hs]; simp [he],
    fun h hs he => by rw [hs]; simp [he]⟩

/-- Witness for C1: a concrete cache hit with tag lists equal as sets
(in a different order) yields exactly one `CacheMark`. -/
theorem registerHost_cache_diff_witness :
    registerHost [("id1", ["a", "b"])] { ID := "id1", Name := "n", Tags := ["b", "a"] }
      = [RegCall.cacheMark "id1"] :=
  (registerHost_cache_diff [("id1", ["a", "b"])]
    { ID := "id1", Name := "n", Tags := ["b", "a"] }).2.1 ["a", "b"] rfl (by decide)

/-- C9: `agentTags` returns the role labels unchanged when no suffixes
are configured, and otherwise exactly the cross product
`role ++ "." ++ suffix` over every role and every configured suffix. -/
theorem agentTags_cross_product (m : Mesos) (ts : List String) :
    (m.ServiceTags = [] → m.agentTags ts = ts) ∧
    (m.ServiceTags ≠ [] → ∀ x,
      x ∈ m.agentTags ts ↔ ∃ suffix ∈ m.ServiceTags, ∃ role ∈ ts, x = role ++ "." ++ suffix) := by
  constructor
  · intro h
    exact agentTags_nil h ts
  · intro h x
    rw [agentTags_eq_flatten m ts h]
    simp only [List.mem_flatten, List.mem_map]
    constructor
    · rintro ⟨l, ⟨tag, htag, rfl⟩, hx⟩
      rcases List.mem_map.mp hx with ⟨role, hrole, rfl⟩
      exact ⟨tag, htag, role, hrole, rfl⟩
    · rintro ⟨suffix, hsuf, role, hrole, rfl⟩
      exact ⟨ts.map (fun t => t ++ "." ++ suffix), ⟨suffix, hsuf, rfl⟩,
        List.mem_map.mpr ⟨role, hrole, rfl⟩⟩

/-! ### Concrete sample environments, used by witnesses and
counterexamples -/

/-- A concrete check builder: records the host/port context it was
invoked with, so that witnesses can observe the invocation. -/
def sampleGetCheck : Task → CheckVar → Check :=
  fun _ cv => { HTTP := cv.Host ++ "|" ++ cv.Port, Interval := "i" }

/-- A concrete engine configuration. Its configured service-id head is
`"myprefix"`, deliberately different from the literal `"mesos-consul"`
in the primary-port entry's identifier. -/
def sampleMesos : Mesos where
  ServiceIdPrefix := "myprefix"
  ServiceName := "mesos"
  ServiceTags := []
  Separator := "-"
  IpOrder := ["host"]
  taskTag := []
  TaskPrivilege := fun _ => true
  GetCheck := sampleGetCheck
  Masters := [{ Ip := "10.0.0.9", PortString := "5050", Port := 5050, IsLeader := true }]

/-- A task with empty discovery name: takes the single-registration
branch. -/
def samplePlainTask : Task where
  ID := "web/service-1"
  Name := "w"
  Labels := []
  DiscoveryInfo := { Name := "", Ports := { DiscoveryPorts := [] } }
  IPSources := [("host", "192.168.1.10")]

/-- A task with a non-empty discovery name but zero declared ports. -/
def sampleTaskNoPorts : Task where
  ID := "t1"
  Name := "t1"
  Labels := []
  DiscoveryInfo := { Name := "web", Ports := { DiscoveryPorts := [] } }
  IPSources := [("host", "192.168.1.10")]

/-- A named discovery port, number 8080, name `http`. -/
def samplePortHttp : DiscoveryPort where
  Name := "http"
  Number := 8080
  Labels := []

/-- A task with one named discovery port. -/
def sampleTaskPorted : Task where
  ID := "web/service-1"
  Name := "w"
  Labels := []
  DiscoveryInfo := { Name := "web", Ports := { DiscoveryPorts := [samplePortHttp] } }
  IPSources := [("host", "192.168.1.10")]

/-- A task carrying the migration-marker label `consul`. -/
def sampleTaskConsul : Task where
  ID := "t2"
  Name := "t2"
  Labels := [{ Key := "consul", Value := "" }]
  DiscoveryInfo := { Name := "", Ports := { DiscoveryPorts := [] } }
  IPSources := []

/-- The desired entry the no-port branch builds for
`samplePlainTask`. -/
def sampleNoPortEntry : Service :=
  sampleMesos.noPortService samplePlainTask "a1" "web-service-1" "192.168.1.10" []

/-- Witness for C9: with suffixes `["s1", "s2"]`, `"agent.s2"` is in the
cross product and is produced, while with no suffixes the roles pass
through unchanged. -/
theorem agentTags_cross_product_witness :
    sampleMesos.agentTags ["agent", "follower"] = ["agent", "follower"] ∧
    "agent.s2" ∈ ({ sampleMesos with ServiceTags := ["s1", "s2"] } : Mesos).agentTags
      ["agent", "follower"] :=
  ⟨(agentTags_cross_product sampleMesos ["agent", "follower"]).1 rfl,
   ((agentTags_cross_product { sampleMesos with ServiceTags := ["s1", "s2"] }
      ["agent", "follower"]).2 (by decide) "agent.s2").mpr
     ⟨"s2", by decide, "agent", by decide, rfl⟩⟩

/-- C4 (amended): the identifier formats actually built. Worker host
entries: configured head, service name, node identifier, hostname.
Control-plane host entries: configured head, service name, IP, port
string. No-port task entries: configured head, then agent and task name
joined by a hyphen, then address. Named-port entries: configured head,
agent, task name, address, port number. The first-port primary entry is
the exception: its identifier begins with the literal `"mesos-consul"`
and carries agent, task name and port number, with no address. -/
theorem desired_entry_id_formats (m : Mesos) (f : Slave) (ma : MasterInfo) (t : Task)
    (agent tname address : String) (tags : List String) (dp : DiscoveryPort) :
    (m.slaveService f).ID
      = m.ServiceIdPrefix ++ ":" ++ m.ServiceName ++ ":" ++ f.ID ++ ":" ++ f.Hostname ∧
    (m.masterService ma).ID
      = m.ServiceIdPrefix ++ ":" ++ m.ServiceName ++ ":" ++ ma.Ip ++ ":" ++ ma.PortString ∧
    (m.noPortService t agent tname address tags).ID
      = m.ServiceIdPrefix ++ ":" ++ agent ++ "-" ++ tname ++ ":" ++ address ∧
    (m.namedPortService t agent tname address tags dp).ID
      = m.ServiceIdPrefix ++ ":" ++ agent ++ ":" ++ tname ++ ":" ++ address ++ ":"
          ++ toString dp.Number ∧
    (m.primaryPortService t agent tname address tags dp).ID
      = "mesos-consul" ++ ":" ++ agent ++ ":" ++ tname ++ ":" ++ toString dp.Number :=
  ⟨rfl, rfl, rfl, rfl, rfl⟩

/-- Counterexample for C4 as stated: with configured service-id head
`"myprefix"`, the first-port primary entry that `registerTask` registers
has identifier `"mesos-consul:a1:web-service-1:8080"`, which does not
begin with the configured head and its delimiter. -/
theorem primary_entry_id_ignores_configured_head :
    sampleMesos.registerTask sampleTaskPorted "a1"
      = Except.ok
          [RegCall.register (sampleMesos.primaryPortService sampleTaskPorted "a1"
            "web-service-1" "192.168.1.10" [] samplePortHttp),
           RegCall.register (sampleMesos.namedPortService sampleTaskPorted "a1"
            "web-service-1" "192.168.1.10" [] samplePortHttp)] ∧
    (sampleMesos.primaryPortService sampleTaskPorted "a1"
        "web-service-1" "192.168.1.10" [] samplePortHttp).ID
      = "mesos-consul:a1:web-service-1:8080" ∧
    sampleMesos.ServiceIdPrefix = "myprefix" ∧
    ∀ r, "mesos-consul:a1:web-service-1:8080" ≠ (sampleMesos.ServiceIdPrefix ++ ":") ++ r :=
  ⟨rfl, rfl, rfl, fun r => ne_of_head_ne _ r _ (by decide)⟩

/-- C7: worker host entries carry the `{agent, follower}`-derived tags
(unchanged when no suffixes are configured) and an HTTP check at
`http://host:port/slave(1)/health` with a 10s interval; control-plane
entries carry `{leader, master}`-derived tags when leading, else
`{master}`-derived, and an HTTP check at `http://ip:port/master/health`
with a 10s interval. `RegisterHosts` issues exactly the cache-diff calls
of these entries, workers first. -/
theorem host_entry_tags_and_checks (m : Mesos) (f : Slave) (ma : MasterInfo)
    (c : Cache) (s : State) :
    (m.slaveService f).Tags = m.agentTags ["agent", "follower"] ∧
    (m.ServiceTags = [] → (m.slaveService f).Tags = ["agent", "follower"]) ∧
    (m.slaveService f).Check
      = { HTTP := "http://" ++ toIP f.PID.Host ++ ":" ++ toString (toPort f.PID.Port)
              ++ "/slave(1)/health"
          Interval := "10s" } ∧
    (ma.IsLeader = true → (m.masterService ma).Tags = m.agentTags ["leader", "master"]) ∧
    (ma.IsLeader = true → m.ServiceTags = [] →
      (m.masterService ma).Tags = ["leader", "master"]) ∧
    (ma.IsLeader = false → (m.masterService ma).Tags = m.agentTags ["master"]) ∧
    (ma.IsLeader = false → m.ServiceTags = [] → (m.masterService ma).Tags = ["master"]) ∧
    (m.masterService ma).Check
      = { HTTP := "http://" ++ ma.Ip ++ ":" ++ toString ma.Port ++ "/master/health"
          Interval := "10s" } ∧
    (m.RegisterHosts c s).2
      = s.Slaves.foldl (fun acc f => acc ++ registerHost c (m.slaveService f)) []
          ++ m.getMasters.foldl (fun acc ma => acc ++ registerHost c (m.masterService ma)) [] := by
  refine ⟨rfl, ?_, rfl, ?_, ?_, ?_, ?_, rfl, rfl⟩
  · intro h
    exact agentTags_nil h _
  · intro hl
    unfold Mesos.masterService
    rw [hl]
    rfl
  · intro hl h
    unfold Mesos.masterService
    rw [hl]
    simpa using agentTags_nil h ["leader", "master"]
  · intro hl
    unfold Mesos.masterService
    rw [hl]
    rfl
  · intro hl h
    unfold Mesos.masterService
    rw [hl]
    simpa using agentTags_nil h ["master"]

/-- Witness for C7: the scenario worker node `agent-1` at
`10.0.0.5:5051` with no configured suffixes yields tags
`["agent", "follower"]` and check URL
`http://10.0.0.5:5051/slave(1)/health`; the leading control-plane node
yields tags `["leader", "master"]`. -/
theorem host_entry_tags_and_checks_witness :
    (sampleMesos.slaveService
        { ID := "agent-1", Hostname := "h1", PID := { Host := "10.0.0.5", Port := "5051" } }).Tags
      = ["agent", "follower"] ∧
    (sampleMesos.slaveService
        { ID := "agent-1", Hostname := "h1", PID := { Host := "10.0.0.5", Port := "5051" } }).Check
      = { HTTP := "http://10.0.0.5:5051/slave(1)/health", Interval := "10s" } ∧
    (sampleMesos.masterService
        { Ip := "10.0.0.9", PortString := "5050", Port := 5050, IsLeader := true }).Tags
      = ["leader", "master"] ∧
    (sampleMesos.masterService
        { Ip := "10.0.0.9", PortString := "5050", Port := 5050, IsLeader := false }).Tags
      = ["master"] :=
  ⟨(host_entry_tags_and_checks sampleMesos
      { ID := "agent-1", Hostname := "h1", PID := { Host := "10.0.0.5", Port := "5051" } }
      { Ip := "10.0.0.9", PortString := "5050", Port := 5050, IsLeader := true }
      [] { Slaves := [] }).2.1 rfl,
   ((host_entry_tags_and_checks sampleMesos
      { ID := "agent-1", Hostname := "h1", PID := { Host := "10.0.0.5", Port := "5051" } }
      { Ip := "10.0.0.9", PortString := "5050", Port := 5050, IsLeader := true }
      [] { Slaves := [] }).2.2.1).trans (by decide),
   (host_entry_tags_and_checks sampleMesos
      { ID := "agent-1", Hostname := "h1", PID := { Host := "10.0.0.5", Port := "5051" } }
      { Ip := "10.0.0.9", PortString := "5050", Port := 5050, IsLeader := true }
      [] { Slaves := [] }).2.2.2.2.1 rfl rfl,
   (host_entry_tags_and_checks sampleMesos
      { ID := "agent-1", Hostname := "h1", PID := { Host := "10.0.0.5", Port := "5051" } }
      { Ip := "10.0.0.9", PortString := "5050", Port := 5050, IsLeader := false }
      [] { Slaves := [] }).2.2.2.2.2.2.1 rfl rfl⟩

/-- C2: a task carrying a `consul` label makes `registerTask` return the
migration-marker error, and an unmarked task whose cleaned (possibly
overridden) name fails the allow-list check makes it return the
not-privileged error; an error result issues no registry calls. -/
theorem registerTask_error_conditions (m : Mesos) (t : Task) (agent : String) :
    ((t.Label "consul").isSome = true →
      m.registerTask t agent = Except.error "Application with consul label") ∧
    (t.Label "consul" = none → m.TaskPrivilege (m.taskName t) = false →
      m.registerTask t agent = Except.error "Task not allowed to be registered") := by
  constructor
  · intro h
    unfold Mesos.registerTask
    cases hl : t.Label "consul" with
    | some v => rfl
    | none => rw [hl] at h; simp at h
  · intro h1 h2
    unfold Mesos.registerTask
    rw [h1]
    simp [h2]

/-- Witness for C2: the test task with the `consul` label (value `""`)
yields the migration-marker error, and a plain task under a deny-all
allow-list yields the not-privileged error. -/
theorem registerTask_error_conditions_witness :
    sampleMesos.registerTask sampleTaskConsul "a1"
      = Except.error "Application with consul label" ∧
    ({ sampleMesos with TaskPrivilege := fun _ => false } : Mesos).registerTask
        samplePlainTask "a1"
      = Except.error "Task not allowed to be registered" :=
  ⟨(registerTask_error_conditions sampleMesos sampleTaskConsul "a1").1 rfl,
   (registerTask_error_conditions { sampleMesos with TaskPrivilege := fun _ => false }
      samplePlainTask "a1").2 rfl rfl⟩

/-- Folding Go-map insertion over workers whose identifiers are fresh
for the accumulator and mutually distinct appends their entries in
order. -/
theorem foldl_mapInsert_fresh :
    ∀ (l : List Slave) (acc : List (String × String)),
      (∀ f ∈ l, ∀ p ∈ acc, p.1 ≠ f.ID) → (l.map Slave.ID).Nodup →
      l.foldl (fun mp f => mapInsert mp f.ID (toIP f.PID.Host)) acc
        = acc ++ l.map (fun f => (f.ID, toIP f.PID.Host)) := by
  intro l
  induction l with
  | nil => intro acc _ _; simp
  | cons f fs ih =>
    intro acc hfresh hnodup
    have hnot : (acc.any (fun p => p.1 == f.ID)) = false := by
      rw [Bool.eq_false_iff]
      intro hany
      rcases List.any_eq_true.mp hany with ⟨p, hp, hpeq⟩
      exact hfresh f (List.mem_cons_self f fs) p hp (by simpa using hpeq)
    have hins : mapInsert acc f.ID (toIP f.PID.Host) = acc ++ [(f.ID, toIP f.PID.Host)] := by
      unfold mapInsert
      rw [hnot]
      simp
    have hmap : (f.ID :: fs.map Slave.ID).Nodup := by simpa using hnodup
    rw [List.foldl_cons, hins, ih (acc ++ [(f.ID, toIP f.PID.Host)]) ?_ ?_]
    · simp
    · intro g hg p hp
      rcases List.mem_append.mp hp with hpa | hps
      · exact hfresh g (List.mem_cons_of_mem f hg) p hpa
      · have hpe : p = (f.ID, toIP f.PID.Host) := by simpa using hps
        have hne : f.ID ≠ g.ID := by
          have hni := (List.nodup_cons.mp hmap).1
          intro he
          exact hni (he ▸ List.mem_map.mpr ⟨g, hg, rfl⟩)
        simpa [hpe] using hne
    · exact (List.nodup_cons.mp hmap).2

/-- C10: `RegisterHosts` rebuilds the agent-address map from scratch —
the result does not depend on the previous map, and (when the snapshot's
worker identifiers are distinct) it holds exactly one entry per worker
of the snapshot, the worker's identifier mapped to the address resolved
from its reported host, with no control-plane entries and nothing left
over. -/
theorem RegisterHosts_rebuilds_agents (m : Mesos) (c : Cache) (s : State)
    (a : List (String × String)) (hn : (s.Slaves.map Slave.ID).Nodup) :
    ({ m with Agents := a } : Mesos).RegisterHosts c s = m.RegisterHosts c s ∧
    (m.RegisterHosts c s).1 = s.Slaves.map (fun f => (f.ID, toIP f.PID.Host)) := by
  constructor
  · rfl
  · show s.Slaves.foldl (fun mp f => mapInsert mp f.ID (toIP f.PID.Host)) [] = _
    rw [foldl_mapInsert_fresh s.Slaves [] (by intro f _ p hp; cases hp) hn]
    simp

/-- Witness for C10: a two-worker snapshot yields exactly the two
worker entries, whatever the previous map held. -/
theorem RegisterHosts_rebuilds_agents_witness :
    ({ sampleMesos with Agents := [("stale", "9.9.9.9")] } : Mesos).RegisterHosts []
        { Slaves := [{ ID := "agent-1", Hostname := "h1", PID := { Host := "10.0.0.5", Port := "5051" } },
                     { ID := "agent-2", Hostname := "h2", PID := { Host := "10.0.0.6", Port := "5051" } }] }
      = sampleMesos.RegisterHosts []
        { Slaves := [{ ID := "agent-1", Hostname := "h1", PID := { Host := "10.0.0.5", Port := "5051" } },
                     { ID := "agent-2", Hostname := "h2", PID := { Host := "10.0.0.6", Port := "5051" } }] } ∧
    (sampleMesos.RegisterHosts []
        { Slaves := [{ ID := "agent-1", Hostname := "h1", PID := { Host := "10.0.0.5", Port := "5051" } },
                     { ID := "agent-2", Hostname := "h2", PID := { Host := "10.0.0.6", Port := "5051" } }] }).1
      = [("agent-1", "10.0.0.5"), ("agent-2", "10.0.0.6")] :=
  ⟨(RegisterHosts_rebuilds_agents sampleMesos []
      { Slaves := [{ ID := "agent-1", Hostname := "h1", PID := { Host := "10.0.0.5", Port := "5051" } },
                   { ID := "agent-2", Hostname := "h2", PID := { Host := "10.0.0.6", Port := "5051" } }] }
      [("stale", "9.9.9.9")] (by decide)).1,
   (RegisterHosts_rebuilds_agents sampleMesos []
      { Slaves := [{ ID := "agent-1", Hostname := "h1", PID := { Host := "10.0.0.5", Port := "5051" } },
                   { ID := "agent-2", Hostname := "h2", PID := { Host := "10.0.0.6", Port := "5051" } }] }
      [("stale", "9.9.9.9")] (by decide)).2⟩

/-- Counterexample for C5 as stated: `sampleTaskNoPorts` is an allowed,
unmarked instance that declares no discovery ports, yet `registerTask`
makes zero `Register` calls (not one), because the branch is taken on
the discovery descriptor's name, which is non-empty here. -/
theorem no_ports_task_registers_nothing_cex :
    sampleTaskNoPorts.DiscoveryInfo.Ports.DiscoveryPorts = [] ∧
    sampleTaskNoPorts.Label "consul" = none ∧
    sampleMesos.TaskPrivilege (sampleMesos.taskName sampleTaskNoPorts) = true ∧
    sampleMesos.registerTask sampleTaskNoPorts "a1" = Except.ok [] :=
  ⟨rfl, rfl, rfl, rfl⟩

/-- C5 (amended): for every allowed, unmarked instance whose discovery
descriptor carries an empty name — the code's branch condition standing
in for "declares no discovery ports" — `registerTask` makes exactly one
`Register` call, whose service uses the base cleaned name, the resolved
address, no explicit port, the base tags, and a health check built with
only the host. -/
theorem registerTask_empty_discovery_name (m : Mesos) (t : Task) (agent : String)
    (h1 : t.Label "consul" = none)
    (h2 : m.TaskPrivilege (m.taskName t) = true)
    (h3 : t.DiscoveryInfo.Name = "") :
    m.registerTask t agent
      = Except.ok [RegCall.register (m.noPortService t agent (m.taskName t) (t.IP m.IpOrder)
          (buildRegisterTaskTags (m.taskName t) (taskLabelTags t) m.taskTag))] ∧
    ∀ (t' : Task) (a tn ad : String) (tg : List String),
      (m.noPortService t' a tn ad tg).Name = tn ∧
      (m.noPortService t' a tn ad tg).Port = none ∧
      (m.noPortService t' a tn ad tg).Address = ad ∧
      (m.noPortService t' a tn ad tg).Tags = tg ∧
      (m.noPortService t' a tn ad tg).Check = m.GetCheck t' { Host := toIP ad, Port := "" } := by
  refine ⟨?_, fun t' a tn ad tg => ⟨rfl, rfl, rfl, rfl, rfl⟩⟩
  unfold Mesos.registerTask
  rw [h1]
  simp [h2, h3]

/-- Witness for C5 (amended): the scenario instance with empty discovery
name and resolved address `192.168.1.10` produces exactly one entry,
whose check context carries the host and an empty port. -/
theorem registerTask_empty_discovery_name_witness :
    sampleMesos.registerTask samplePlainTask "a1"
      = Except.ok [RegCall.register (sampleMesos.noPortService samplePlainTask "a1"
          (sampleMesos.taskName samplePlainTask) (samplePlainTask.IP sampleMesos.IpOrder)
          (buildRegisterTaskTags (sampleMesos.taskName samplePlainTask)
            (taskLabelTags samplePlainTask) sampleMesos.taskTag))] ∧
    (sampleMesos.noPortService samplePlainTask "a1" "web-service-1" "192.168.1.10" []).Port
      = none ∧
    (sampleMesos.noPortService samplePlainTask "a1" "web-service-1" "192.168.1.10" []).Check
      = sampleMesos.GetCheck samplePlainTask { Host := "192.168.1.10", Port := "" } :=
  ⟨(registerTask_empty_discovery_name sampleMesos samplePlainTask "a1" rfl rfl rfl).1,
   (registerTask_empty_discovery_name sampleMesos samplePlainTask "a1" rfl rfl rfl).2
      samplePlainTask "a1" "web-service-1" "192.168.1.10" [] |>.2.1,
   (registerTask_empty_discovery_name sampleMesos samplePlainTask "a1" rfl rfl rfl).2
      samplePlainTask "a1" "web-service-1" "192.168.1.10" [] |>.2.2.2.2⟩

/-- C6: under the discovery-ports branch, the trace is the
concatenation, in declared port order, of each port's calls; a port
carrying a non-empty name contributes one additional entry (besides the
first-port primary entry) whose name is the cleaned base name suffixed
with the port's name, whose tags are the base tags, then the port's
name, then the port's own tags, and whose identifier ends in the port
number; a port without a name contributes no such entry. -/
theorem registerTask_named_port_entries (m : Mesos) (t : Task) (agent : String)
    (h1 : t.Label "consul" = none)
    (h2 : m.TaskPrivilege (m.taskName t) = true)
    (h3 : t.DiscoveryInfo.Name ≠ "") :
    m.registerTask t agent
      = Except.ok ((t.DiscoveryInfo.Ports.DiscoveryPorts.enum.map
          (fun kp => m.portCalls t agent (m.taskName t) (t.IP m.IpOrder)
            (buildRegisterTaskTags (m.taskName t) (taskLabelTags t) m.taskTag)
            kp.1 kp.2)).flatten) ∧
    (∀ (tn ad : String) (tg : List String) (k : Nat) (dp : DiscoveryPort), dp.Name ≠ "" →
      m.portCalls t agent tn ad tg k dp
        = (if k = 0 then [RegCall.register (m.primaryPortService t agent tn ad tg dp)] else [])
          ++ [RegCall.register (m.namedPortService t agent tn ad tg dp)]) ∧
    (∀ (tn ad : String) (tg : List String) (k : Nat) (dp : DiscoveryPort), dp.Name = "" →
      m.portCalls t agent tn ad tg k dp
        = if k = 0 then [RegCall.register (m.primaryPortService t agent tn ad tg dp)] else []) ∧
    (∀ (tn ad : String) (tg : List String) (dp : DiscoveryPort),
      (m.namedPortService t agent tn ad tg dp).Name
        = cleanName (tn ++ "-" ++ dp.Name) m.Separator ∧
      (m.namedPortService t agent tn ad tg dp).Tags = tg ++ [dp.Name] ++ portLabelTags dp ∧
      (m.namedPortService t agent tn ad tg dp).ID
        = m.ServiceIdPrefix ++ ":" ++ agent ++ ":" ++ tn ++ ":" ++ ad ++ ":"
            ++ toString dp.Number) := by
  refine ⟨?_, ?_, ?_, fun tn ad tg dp => ⟨rfl, rfl, rfl⟩⟩
  · unfold Mesos.registerTask
    rw [h1]
    have hb : (t.DiscoveryInfo.Name != "") = true := bne_iff_ne.mpr h3
    simp only [h2, Bool.not_true, Bool.false_eq_true, if_false, hb, if_true]
    congr 1
    have hfold := foldl_append_eq
      (fun kp : Nat × DiscoveryPort => m.portCalls t agent (m.taskName t) (t.IP m.IpOrder)
        (buildRegisterTaskTags (m.taskName t) (taskLabelTags t) m.taskTag) kp.1 kp.2)
      t.DiscoveryInfo.Ports.DiscoveryPorts.enum []
    simpa using hfold
  · intro tn ad tg k dp hdp
    have hb : (dp.Name != "") = true := bne_iff_ne.mpr hdp
    unfold Mesos.portCalls
    rw [hb]
    simp
  · intro tn ad tg k dp hdp
    have hb : (dp.Name != "") = false := by simp [hdp]
    unfold Mesos.portCalls
    rw [hb]
    simp

/-- Witness for C6: the scenario task `web/service-1` with one named
port `http` number 8080 produces exactly the primary entry and the named
entry `web-service-1-http` whose tags include `http`. -/
theorem registerTask_named_port_entries_witness :
    sampleMesos.registerTask sampleTaskPorted "a1"
      = Except.ok ((sampleTaskPorted.DiscoveryInfo.Ports.DiscoveryPorts.enum.map
          (fun kp => sampleMesos.portCalls sampleTaskPorted "a1"
            (sampleMesos.taskName sampleTaskPorted) (sampleTaskPorted.IP sampleMesos.IpOrder)
            (buildRegisterTaskTags (sampleMesos.taskName sampleTaskPorted)
              (taskLabelTags sampleTaskPorted) sampleMesos.taskTag)
            kp.1 kp.2)).flatten) ∧
    (sampleMesos.namedPortService sampleTaskPorted "a1" "web-service-1" "192.168.1.10" []
        samplePortHttp).Name = "web-service-1-http" ∧
    (sampleMesos.namedPortService sampleTaskPorted "a1" "web-service-1" "192.168.1.10" []
        samplePortHttp).Tags = ["http"] :=
  ⟨(registerTask_named_port_entries sampleMesos sampleTaskPorted "a1" rfl rfl (by decide)).1,
   (((registerTask_named_port_entries sampleMesos sampleTaskPorted "a1" rfl rfl
      (by decide)).2.2.2 "web-service-1" "192.168.1.10" [] samplePortHttp).1).trans (by decide),
   (((registerTask_named_port_entries sampleMesos sampleTaskPorted "a1" rfl rfl
      (by decide)).2.2.2 "web-service-1" "192.168.1.10" [] samplePortHttp).2.1).trans (by decide)⟩

/-- Every call issued by one iteration of the ports loop is a
`Register`. -/
theorem portCalls_only_register (m : Mesos) (t : Task) (agent tn ad : String)
    (tg : List String) (k : Nat) (dp : DiscoveryPort) :
    ∀ call ∈ m.portCalls t agent tn ad tg k dp, ∃ s, call = RegCall.register s := by
  intro call hc
  unfold Mesos.portCalls at hc
  rcases List.mem_append.mp hc with h | h
  · cases hk : (k == 0)
    · rw [hk] at h; simp at h
    · rw [hk] at h
      simp only [if_true] at h
      exact ⟨_, List.mem_singleton.mp h⟩
  · cases hn : (dp.Name != "")
    · rw [hn] at h; simp at h
    · rw [hn] at h
      simp only [if_true] at h
      exact ⟨_, List.mem_singleton.mp h⟩

/-- C3 (amended): no entry produced by the task reconciler passes
through the cache-diff decision — every call `registerTask` issues is an
unconditional `Register`, never a `CacheMark` or `CacheDelete`, whatever
the registry cache holds; only host entries use the cache check. -/
theorem registerTask_registers_unconditionally (m : Mesos) (t : Task) (agent : String)
    (trace : List RegCall) (h : m.registerTask t agent = Except.ok trace) :
    ∀ call ∈ trace, ∃ s, call = RegCall.register s := by
  unfold Mesos.registerTask at h
  cases hl : t.Label "consul" with
  | some v => rw [hl] at h; cases h
  | none =>
    rw [hl] at h
    cases hp : m.TaskPrivilege (m.taskName t) with
    | false => simp [hp] at h
    | true =>
      simp only [hp, Bool.not_true, Bool.false_eq_true, if_false] at h
      cases hd : (t.DiscoveryInfo.Name != "") with
      | false =>
        rw [hd] at h
        simp only [Bool.false_eq_true, if_false, Except.ok.injEq] at h
        intro call hc
        rw [← h] at hc
        exact ⟨_, List.mem_singleton.mp hc⟩
      | true =>
        rw [hd] at h
        simp only [if_true, Except.ok.injEq] at h
        intro call hc
        rw [← h] at hc
        rw [foldl_append_eq
          (fun kp : Nat × DiscoveryPort => m.portCalls t agent (m.taskName t) (t.IP m.IpOrder)
            (buildRegisterTaskTags (m.taskName t) (taskLabelTags t) m.taskTag) kp.1 kp.2)
          t.DiscoveryInfo.Ports.DiscoveryPorts.enum []] at hc
        simp only [List.nil_append, List.mem_flatten, List.mem_map] at hc
        rcases hc with ⟨l, ⟨kp, _, rfl⟩, hcall⟩
        exact portCalls_only_register m t agent _ _ _ kp.1 kp.2 call hcall

/-- Witness for C3 (amended): applied to the concrete no-port trace. -/
theorem registerTask_registers_unconditionally_witness :
    ∃ s, RegCall.register sampleNoPortEntry = RegCall.register s :=
  registerTask_registers_unconditionally sampleMesos samplePlainTask "a1"
    [RegCall.register sampleNoPortEntry] rfl
    (RegCall.register sampleNoPortEntry) (List.mem_singleton.mpr rfl)

/-- Counterexample for C3 as stated: a cache that already holds the
base-name entry's identifier with identical (hence set-equal) tags.
Had the entry passed through the cache-diff decision, the call would
have been `CacheMark` (as `registerHost` on the same entry and cache
shows); `registerTask` issues an unconditional `Register` instead. -/
theorem registerTask_skips_cache_cex :
    sampleMesos.registerTask samplePlainTask "a1"
      = Except.ok [RegCall.register sampleNoPortEntry] ∧
    cacheLookup [(sampleNoPortEntry.ID, sampleNoPortEntry.Tags)] sampleNoPortEntry.ID
      = some sampleNoPortEntry.Tags ∧
    sliceEq sampleNoPortEntry.Tags sampleNoPortEntry.Tags = true ∧
    registerHost [(sampleNoPortEntry.ID, sampleNoPortEntry.Tags)] sampleNoPortEntry
      = [RegCall.cacheMark sampleNoPortEntry.ID] ∧
    RegCall.register sampleNoPortEntry ≠ RegCall.cacheMark sampleNoPortEntry.ID :=
  ⟨rfl, rfl, by decide, by decide, by decide⟩

/-- C8 (code_bug): the rule table `taskTag` is a Go `map[string][]string`
and the loop at `register.go:206` iterates it with `range`, whose order
Go leaves unspecified and randomized; the association list of the
embedding stands for one possible iteration order. Evaluating
`buildRegisterTaskTags` at one and the same input — task name
`web-service`, no starting tags, and the map holding the two rules
`web -> [a]` and `service -> [b]`, both of whose patterns match — under
the two possible iteration orders of that map yields observably
different tag sequences. The result order therefore depends on an
iteration order the map does not define, and the claimed "configured
table's order / first-seen tag wins its position" behaviour, which the
spec requires, is not delivered by the code. -/
theorem buildRegisterTaskTags_order_dependent :
    buildRegisterTaskTags "web-service" [] [("web", ["a"]), ("service", ["b"])] = ["a", "b"] ∧
    buildRegisterTaskTags "web-service" [] [("service", ["b"]), ("web", ["a"])] = ["b", "a"] ∧
    (["a", "b"] : List String) ≠ ["b", "a"] :=
  ⟨by decide, by decide, by decide⟩

end MesosConsul
